import Mathlib

/-!
Shallow embedding of `rushb.go`: a hierarchical test-suite runner on top of
Go's `testing.T`.

Modelling conventions:
* A Go `panic` payload (`interface\x7b\x7d`) is a `GoValue`; the internal
  `suiteError` struct is the `GoValue.suiteErr` constructor.
* Calls to the host reporting facility (`T.Error`, `T.Fatal`) and console
  output (`fmt.Println`) are recorded as an ordered list of `Event`s.
* `T.Fatal` calls `runtime.Goexit`, which unwinds the goroutine while still
  running deferred functions; `recover` returns `nil` during a Goexit.  This
  is modelled by the `RunFlow.goexit` control outcome, distinct from
  `RunFlow.panicked`.
* A caller-supplied test body is a function from the suite state to a new
  suite state, the events it emitted, and how it finished (normal return
  with an optional error / panic / goexit already in progress).
* The `fatih/color` helpers emit ANSI escape sequences (`NewSuite` forces
  `color.NoColor = false`); they are reproduced literally.
-/

/-- A Go dynamically-typed value, as far as this library inspects one:
panic payloads, `error` returns and `Assert` arguments. -/
inductive GoValue where
  | str (s : String)
  | int (n : Int)
  | suiteErr (critical : Bool) (msg : String)
  | nil
deriving DecidableEq, Repr

/-- Go `%v` formatting for the values above (`fmt.Sprintf`). -/
def GoValue.format : GoValue → String
  | .str s => s
  | .int n => toString n
  | .suiteErr c m => "\x7b" ++ toString c ++ " " ++ m ++ "\x7d"
  | .nil => "<nil>"

/-- One observable effect: a printed console line, or a call into the host
reporting facility (`testing.T`). -/
inductive Event where
  | out (line : String)
  | tError (v : GoValue)
  | tFatal (v : GoValue)
deriving DecidableEq, Repr

/-- The `Suite` struct: indentation depth and the three counters.
The `T *testing.T` field is modelled by the `Event` trace instead. -/
structure Suite where
  indent : Int
  passed : Nat
  failed : Nat
  skiped : Nat
deriving DecidableEq, Repr

/-- `NewSuite`: a fresh suite (all fields zero-valued). -/
def NewSuite : Suite := ⟨0, 0, 0, 0⟩

/-- How a block of caller code finished. -/
inductive RunFlow where
  | norm
  | panicked (v : GoValue)
  | goexit
deriving DecidableEq, Repr

/-- Result of running a `SuiteTestHandler` (`func(s *Suite) error`):
a normal return carries the `error` result (`none` = `nil`). -/
inductive HandlerResult where
  | ret (err : Option GoValue)
  | panicked (v : GoValue)
  | goexit
deriving DecidableEq, Repr

/-- A caller-supplied `SuiteTestHandler`: runs against the suite, producing a
new suite state, emitted events and a completion result. -/
structure SuiteTestHandler where
  run : Suite → Suite × List Event × HandlerResult

/-- A caller-supplied `func()` body (used by `Title`, `Start`, `Try`). -/
structure Body where
  run : Suite → Suite × List Event × RunFlow

/-- `color.HiGreenString` with color forced on. -/
def hiGreenString (s : String) : String := "\x1b[92m" ++ s ++ "\x1b[0m"

/-- `color.HiRedString` with color forced on. -/
def hiRedString (s : String) : String := "\x1b[91m" ++ s ++ "\x1b[0m"

/-- `color.HiBlueString` with color forced on. -/
def hiBlueString (s : String) : String := "\x1b[94m" ++ s ++ "\x1b[0m"

/-- `color.HiBlackString` with color forced on. -/
def hiBlackString (s : String) : String := "\x1b[90m" ++ s ++ "\x1b[0m"

/-- `color.New(color.Bold).Sprintf` with color forced on. -/
def boldString (s : String) : String := "\x1b[1m" ++ s ++ "\x1b[0m"

/-- `s.println(content)`: prefix `content` with `s.indent` spaces and print.
(`strings.Repeat` would panic for a negative count; the suite operations keep
`indent` non-negative, so `Int.toNat` is only evaluated on naturals here.) -/
def Suite.println (s : Suite) (content : String) : Event :=
  Event.out (String.mk (List.replicate s.indent.toNat ' ') ++ content)

/-- `s.title(content)`: bold line. -/
def Suite.title (s : Suite) (content : String) : Event :=
  s.println (boldString content)

/-- `s.ok(content)`: `[Done]` line. -/
def Suite.ok (s : Suite) (content : String) : Event :=
  s.println ("[" ++ hiGreenString "Done" ++ "] " ++ content)

/-- `s.fail(content)`: `[Fail]` line. -/
def Suite.fail (s : Suite) (content : String) : Event :=
  s.println ("[" ++ hiRedString "Fail" ++ "] " ++ content)

/-- `s.skip(content)`: `[Skip]` line. -/
def Suite.skip (s : Suite) (content : String) : Event :=
  s.println ("[" ++ hiBlueString "Skip" ++ "] " ++ hiBlackString content)

/-- `s.info(content)`: grey line. -/
def Suite.info (s : Suite) (content : String) : Event :=
  s.println (hiBlackString content)

/-- `Check(name, test)`: runs `test`; a returned error marks the check failed
(`T.Error`), and a recovered panic is classified by the deferred handler —
a non-critical `suiteError` goes to `T.Error`, a critical one to `T.Fatal`
(Goexit), any other payload to `T.Error`.  Note the source has no `return`
after the returned-error branch, so that branch falls through to
`s.passed++` and `s.ok(name)`. -/
def Suite.Check (s : Suite) (name : String) (test : SuiteTestHandler) :
    Suite × List Event × RunFlow :=
  match test.run s with
  | (s1, evs, .panicked err) =>
    let s2 : Suite := { s1 with failed := s1.failed + 1 }
    let failEv := s2.fail name
    match err with
    | .suiteErr critical msg =>
      if critical then
        (s2, evs ++ [failEv, Event.tFatal (.str msg)], RunFlow.goexit)
      else
        (s2, evs ++ [failEv, Event.tError (.str msg)], RunFlow.norm)
    | v => (s2, evs ++ [failEv, Event.tError v], RunFlow.norm)
  | (s1, evs, .goexit) => (s1, evs, RunFlow.goexit)
  | (s1, evs, .ret (some err)) =>
    let s2 : Suite := { s1 with failed := s1.failed + 1 }
    let s3 : Suite := { s2 with passed := s2.passed + 1 }
    (s3, evs ++ [s2.fail name, Event.tError err, s3.ok name], RunFlow.norm)
  | (s1, evs, .ret none) =>
    let s2 : Suite := { s1 with passed := s1.passed + 1 }
    (s2, evs ++ [s2.ok name], RunFlow.norm)

/-- `Critical(name, test)`: like `Check`, but both a returned error and any
recovered panic go through the local `fail` closure, which calls `T.Fatal`
(Goexit), so the trailing `s.passed++` never runs on a failure. -/
def Suite.Critical (s : Suite) (name : String) (test : SuiteTestHandler) :
    Suite × List Event × RunFlow :=
  match test.run s with
  | (s1, evs, .panicked err) =>
    let s2 : Suite := { s1 with failed := s1.failed + 1 }
    (s2, evs ++ [s2.fail name, Event.tFatal err], RunFlow.goexit)
  | (s1, evs, .goexit) => (s1, evs, RunFlow.goexit)
  | (s1, evs, .ret (some err)) =>
    let s2 : Suite := { s1 with failed := s1.failed + 1 }
    (s2, evs ++ [s2.fail name, Event.tFatal err], RunFlow.goexit)
  | (s1, evs, .ret none) =>
    let s2 : Suite := { s1 with passed := s1.passed + 1 }
    (s2, evs ++ [s2.ok name], RunFlow.norm)

/-- `Skip(name, test)`: increments `skiped` and prints a Skip line;
`test` is never invoked. -/
def Suite.Skip (s : Suite) (name : String) (test : SuiteTestHandler) :
    Suite × List Event × RunFlow :=
  let s1 : Suite := { s with skiped := s.skiped + 1 }
  (s1, [s1.skip name], RunFlow.norm)

/-- Result of `Try`: final suite state, events, the value handed to the
`catch` callback (if it was invoked), the boolean result, and the control
flow leaving `Try`. -/
structure TryResult where
  suite : Suite
  events : List Event
  caught : Option GoValue
  result : Bool
  flow : RunFlow
deriving DecidableEq, Repr

/-- `Try(try, catch)`: runs the attempt; a recovered panic invokes `catch`
(when non-nil) with the payload and yields `false`; a normal completion
yields `true`.  During a Goexit, `recover` is `nil`, so the deferred handler
takes its else-branch and the Goexit keeps unwinding. -/
def Suite.Try (s : Suite) (attempt : Body) (catchNonNil : Bool) : TryResult :=
  match attempt.run s with
  | (s1, evs, .norm) => ⟨s1, evs, none, true, RunFlow.norm⟩
  | (s1, evs, .panicked v) =>
    ⟨s1, evs, if catchNonNil then some v else none, false, RunFlow.norm⟩
  | (s1, evs, .goexit) => ⟨s1, evs, none, true, RunFlow.goexit⟩

/-- `Assert(actual, expect)`: Go `!=` on `interface\x7b\x7d` values; on
mismatch it panics with the plain `fmt.Sprintf` string (not a `suiteError`).
The result is the panic payload, `none` meaning a normal return. -/
def Suite.Assert (s : Suite) (actual expect : GoValue) : Option GoValue :=
  if actual = expect then none
  else some (GoValue.str
    ("Expect \"" ++ expect.format ++ "\", got \"" ++ actual.format ++ "\""))

/-- `Fail(content)`: the payload of the panic raised — a non-critical
`suiteError`. -/
def Suite.Fail (s : Suite) (content : String) : GoValue :=
  GoValue.suiteErr false content

/-- `Fatal(content)`: the payload of the panic raised — a critical
`suiteError`. -/
def Suite.Fatal (s : Suite) (content : String) : GoValue :=
  GoValue.suiteErr true content

/-- `Info(content)`: prints a grey line. -/
def Suite.Info (s : Suite) (content : String) : Suite × List Event × RunFlow :=
  (s, [s.info content], RunFlow.norm)

/-- `Title(name, test)`: blank line, bold name, blank line, `indent += 2`,
run the body, and a deferred `indent -= 2` that runs on every exit path
(normal return, panic unwind, or Goexit). -/
def Suite.Title (s : Suite) (name : String) (test : Body) :
    Suite × List Event × RunFlow :=
  let e1 := s.println ""
  let e2 := s.title name
  let e3 := s.println ""
  let s1 : Suite := { s with indent := s.indent + 2 }
  match test.run s1 with
  | (s2, evs, fl) =>
    let s3 : Suite := { s2 with indent := s2.indent - 2 }
    (s3, [e1, e2, e3] ++ evs, fl)

/-- The statistics block printed by the deferred closure in `Start`. -/
def Suite.summary (s : Suite) : List Event :=
  [ s.println "\n=== FINISHED\n",
    s.println (hiGreenString "Passed" ++ ": " ++ toString s.passed),
    s.println (hiRedString "Failed" ++ ": " ++ toString s.failed),
    s.println (hiBlueString "Skiped" ++ ": " ++ toString s.skiped),
    s.println ("\nTotal: " ++ toString (s.passed + s.failed + s.skiped) ++ "\n") ]

/-- `Start(name, test)`: runs `Title(name, test)` with a deferred summary
printer, which runs on every exit path (normal, panic unwind, Goexit). -/
def Suite.Start (s : Suite) (name : String) (test : Body) :
    Suite × List Event × RunFlow :=
  match s.Title name test with
  | (s1, evs, fl) => (s1, evs ++ s1.summary, fl)

/-- Claim C1 (code bug): a `Check` whose test returns a failure description is
claimed to leave `passed` unchanged and print no Ok line.  Evaluating `Check`
on a test returning an error shows the source's missing `return` falls
through: `failed` and `passed` are both incremented and both a Fail and an
Ok line are printed. -/
theorem check_returned_failure_falls_through :
    NewSuite.Check "t" ⟨fun s => (s, [], HandlerResult.ret (some (GoValue.str "e")))⟩ =
      (⟨0, 1, 1, 0⟩,
       [Suite.fail ⟨0, 0, 1, 0⟩ "t", Event.tError (GoValue.str "e"),
        Suite.ok ⟨0, 1, 1, 0⟩ "t"],
       RunFlow.norm) := rfl

/-- Claim C2 (code bug): an abnormal exit that is not a `suiteError` is
claimed (and documented in the source) to be escalated as fatal.  Evaluating
`Check` on a test that panics with a plain string shows the default branch
of the recover handler records it via `T.Error` — non-fatal — and the run
continues (`RunFlow.norm`). -/
theorem check_plain_panic_recorded_nonfatal :
    NewSuite.Check "t" ⟨fun s => (s, [], HandlerResult.panicked (GoValue.str "boom"))⟩ =
      (⟨0, 0, 1, 0⟩,
       [Suite.fail ⟨0, 0, 1, 0⟩ "t", Event.tError (GoValue.str "boom")],
       RunFlow.norm) := rfl

/-- Claim C3 (counterexample): `Assert(5, 6)` is claimed to raise the Fatal
abort signal (`suiteError` with `critical = true`).  It actually panics with
a plain formatted string, which is not the signal value. -/
theorem assert_mismatch_not_fatal_signal :
    NewSuite.Assert (GoValue.int 5) (GoValue.int 6) =
      some (GoValue.str "Expect \"6\", got \"5\"") ∧
    NewSuite.Assert (GoValue.int 5) (GoValue.int 6) ≠
      some (GoValue.suiteErr true "Expect \"6\", got \"5\"") := by
  refine ⟨rfl, ?_⟩
  intro h
  simp [Suite.Assert] at h

/-- Claim C3 (amended): `Assert(actual, expected)` returns normally when the
values are equal; when unequal it panics carrying the plain string
`Expect "<expected>", got "<actual>"` (an unrecognized, non-signal payload),
not the Fatal abort signal. -/
theorem assert_equal_ok_unequal_panics_plain_string (s : Suite)
    (actual expect : GoValue) :
    (actual = expect → s.Assert actual expect = none) ∧
    (actual ≠ expect →
      s.Assert actual expect =
        some (GoValue.str
          ("Expect \"" ++ expect.format ++ "\", got \"" ++ actual.format ++ "\""))) := by
  refine ⟨fun h => ?_, fun h => ?_⟩
  · simp [Suite.Assert, h]
  · simp [Suite.Assert, h]

/-- Witness for the amended C3 theorem at `Assert(5, 5)` and `Assert(5, 6)`. -/
theorem assert_equal_ok_unequal_panics_plain_string_witness :
    NewSuite.Assert (GoValue.int 5) (GoValue.int 5) = none ∧
    NewSuite.Assert (GoValue.int 5) (GoValue.int 6) =
      some (GoValue.str "Expect \"6\", got \"5\"") := by
  refine ⟨(assert_equal_ok_unequal_panics_plain_string NewSuite
            (GoValue.int 5) (GoValue.int 5)).1 rfl, ?_⟩
  have h := (assert_equal_ok_unequal_panics_plain_string NewSuite
              (GoValue.int 5) (GoValue.int 6)).2 (by decide)
  exact h.trans (by rfl)

/-- Claim C5: a `Check` whose test aborts via the Recoverable signal
(`suiteError` with `critical = false`, as raised by `Fail`) increments
`failed` by exactly 1, prints exactly one Fail line, records the message
via `T.Error` (non-fatal), leaves `passed` unchanged, and control flow
continues normally. -/
theorem check_recoverable_signal (s s1 : Suite) (name msg : String)
    (test : SuiteTestHandler) (evs : List Event)
    (h : test.run s = (s1, evs, HandlerResult.panicked (GoValue.suiteErr false msg))) :
    s.Check name test =
      ({ s1 with failed := s1.failed + 1 },
       evs ++ [Suite.fail { s1 with failed := s1.failed + 1 } name,
               Event.tError (GoValue.str msg)],
       RunFlow.norm) := by
  unfold Suite.Check
  rw [h]
  rfl

/-- Witness for C5 on a concrete recoverable abort. -/
theorem check_recoverable_signal_witness :
    NewSuite.Check "t" ⟨fun s => (s, [], HandlerResult.panicked (GoValue.suiteErr false "m"))⟩ =
      (⟨0, 0, 1, 0⟩,
       [Suite.fail ⟨0, 0, 1, 0⟩ "t", Event.tError (GoValue.str "m")],
       RunFlow.norm) :=
  check_recoverable_signal NewSuite NewSuite "t" "m"
    ⟨fun s => (s, [], HandlerResult.panicked (GoValue.suiteErr false "m"))⟩ [] rfl

/-- Claim C9: `Skip` never invokes the supplied test body (the result is the
same for any two bodies), increments `skiped` by exactly 1, and prints one
Skip line for the name. -/
theorem skip_never_runs_test (s : Suite) (name : String)
    (t1 t2 : SuiteTestHandler) :
    s.Skip name t1 = s.Skip name t2 ∧
    s.Skip name t1 =
      ({ s with skiped := s.skiped + 1 },
       [Suite.skip { s with skiped := s.skiped + 1 } name],
       RunFlow.norm) :=
  ⟨rfl, rfl⟩

/-- Claim C4: `Critical` has no recoverable path — any panic or any returned
error increments `failed` by 1, prints one Fail line, escalates via `T.Fatal`
(run-terminating Goexit) and leaves `passed` unchanged; only a clean `nil`
return increments `passed` and prints an Ok line. -/
theorem critical_no_recoverable_path (s s1 : Suite) (name : String)
    (test : SuiteTestHandler) (evs : List Event) (res : HandlerResult)
    (h : test.run s = (s1, evs, res)) :
    (∀ v, res = HandlerResult.panicked v →
      s.Critical name test =
        ({ s1 with failed := s1.failed + 1 },
         evs ++ [Suite.fail { s1 with failed := s1.failed + 1 } name,
                 Event.tFatal v],
         RunFlow.goexit)) ∧
    (∀ e, res = HandlerResult.ret (some e) →
      s.Critical name test =
        ({ s1 with failed := s1.failed + 1 },
         evs ++ [Suite.fail { s1 with failed := s1.failed + 1 } name,
                 Event.tFatal e],
         RunFlow.goexit)) ∧
    (res = HandlerResult.ret none →
      s.Critical name test =
        ({ s1 with passed := s1.passed + 1 },
         evs ++ [Suite.ok { s1 with passed := s1.passed + 1 } name],
         RunFlow.norm)) := by
  refine ⟨fun v hv => ?_, fun e he => ?_, fun hn => ?_⟩
  · subst hv; unfold Suite.Critical; rw [h]
  · subst he; unfold Suite.Critical; rw [h]
  · subst hn; unfold Suite.Critical; rw [h]

/-- Witness for C4 on a concrete returned error. -/
theorem critical_no_recoverable_path_witness :
    NewSuite.Critical "t" ⟨fun s => (s, [], HandlerResult.ret (some (GoValue.str "e")))⟩ =
      (⟨0, 0, 1, 0⟩,
       [Suite.fail ⟨0, 0, 1, 0⟩ "t", Event.tFatal (GoValue.str "e")],
       RunFlow.goexit) :=
  (critical_no_recoverable_path NewSuite NewSuite "t"
    ⟨fun s => (s, [], HandlerResult.ret (some (GoValue.str "e")))⟩ []
    (HandlerResult.ret (some (GoValue.str "e"))) rfl).2.1 (GoValue.str "e") rfl

/-- Claim C8: `Try` returns `true` iff the attempt completes without
panicking; when the attempt panics, `Try` catches the value, hands it to the
`catch` callback exactly when one was supplied, returns `false`, and never
re-raises (control leaves `Try` normally). -/
theorem try_catches_all (s s1 : Suite) (attempt : Body) (evs : List Event)
    (fl : RunFlow) (catchNonNil : Bool)
    (h : attempt.run s = (s1, evs, fl)) (hg : fl ≠ RunFlow.goexit) :
    ((s.Try attempt catchNonNil).result = true ↔ fl = RunFlow.norm) ∧
    (fl = RunFlow.norm →
      s.Try attempt catchNonNil = ⟨s1, evs, none, true, RunFlow.norm⟩) ∧
    (∀ v, fl = RunFlow.panicked v →
      s.Try attempt catchNonNil =
        ⟨s1, evs, if catchNonNil then some v else none, false, RunFlow.norm⟩) := by
  cases fl with
  | norm =>
    refine ⟨?_, ?_, ?_⟩
    · unfold Suite.Try; rw [h]; simp
    · intro hn
      unfold Suite.Try; rw [h]
    · intro v hv
      exact RunFlow.noConfusion hv
  | panicked v =>
    refine ⟨?_, ?_, ?_⟩
    · unfold Suite.Try; rw [h]; simp
    · intro hn
      exact RunFlow.noConfusion hn
    · intro w hw
      injection hw with hvw
      subst hvw
      unfold Suite.Try; rw [h]
  | goexit => exact absurd rfl hg

/-- Witness for C8 on a panicking attempt with a non-nil catch callback. -/
theorem try_catches_all_witness :
    NewSuite.Try ⟨fun s => (s, [], RunFlow.panicked (GoValue.str "p"))⟩ true =
      ⟨NewSuite, [], some (GoValue.str "p"), false, RunFlow.norm⟩ :=
  (try_catches_all NewSuite NewSuite
    ⟨fun s => (s, [], RunFlow.panicked (GoValue.str "p"))⟩ []
    (RunFlow.panicked (GoValue.str "p")) true rfl
    (fun hx => nomatch hx)).2.2 (GoValue.str "p") rfl

/-- Unfolding lemma: `Title` in terms of the body's result components
(holds by definitional structure eta). -/
theorem Suite.Title_eq (s : Suite) (name : String) (body : Body) :
    s.Title name body =
      ({ (body.run { s with indent := s.indent + 2 }).1 with
          indent := (body.run { s with indent := s.indent + 2 }).1.indent - 2 },
       [s.println "", s.title name, s.println ""] ++
         (body.run { s with indent := s.indent + 2 }).2.1,
       (body.run { s with indent := s.indent + 2 }).2.2) := rfl

/-- Unfolding lemma: `Start` in terms of the `Title` result components. -/
theorem Suite.Start_eq (s : Suite) (name : String) (body : Body) :
    s.Start name body =
      ((s.Title name body).1,
       (s.Title name body).2.1 ++ (s.Title name body).1.summary,
       (s.Title name body).2.2) := rfl

/-- Claim C6: after `Title` (and hence `Start`) returns — on every exit path,
since the deferred decrement runs on normal return, panic unwind and Goexit
alike — the indentation depth equals its pre-call value, provided the body
itself is indentation-balanced. -/
theorem title_start_indent_balanced (s : Suite) (name : String) (body : Body)
    (h : (body.run { s with indent := s.indent + 2 }).1.indent = s.indent + 2) :
    (s.Title name body).1.indent = s.indent ∧
    (s.Start name body).1.indent = s.indent := by
  have key : (s.Title name body).1.indent = s.indent := by
    rw [Suite.Title_eq]
    show (body.run { s with indent := s.indent + 2 }).1.indent - 2 = s.indent
    omega
  refine ⟨key, ?_⟩
  rw [Suite.Start_eq]
  exact key

/-- Witness for C6 with a trivial, indentation-preserving body. -/
theorem title_start_indent_balanced_witness :
    (NewSuite.Title "g" ⟨fun s2 => (s2, [], RunFlow.norm)⟩).1.indent = 0 ∧
    (NewSuite.Start "g" ⟨fun s2 => (s2, [], RunFlow.norm)⟩).1.indent = 0 :=
  title_start_indent_balanced NewSuite "g" ⟨fun s2 => (s2, [], RunFlow.norm)⟩ rfl

/-- Claim C7: for every body and every outcome path inside it, `Start` emits
exactly the `Title` output followed by one summary block; the summary block
consists of the `=== FINISHED` marker line and the `Passed`, `Failed`,
`Skiped` counter lines, and its `Total` line carries the sum
`passed + failed + skiped` of the final suite state. -/
theorem start_always_prints_summary (s : Suite) (name : String) (body : Body) :
    (s.Start name body).2.1 =
      (s.Title name body).2.1 ++ Suite.summary (s.Start name body).1 ∧
    Suite.summary (s.Start name body).1 =
      [ (s.Start name body).1.println "\n=== FINISHED\n",
        (s.Start name body).1.println
          (hiGreenString "Passed" ++ ": " ++ toString (s.Start name body).1.passed),
        (s.Start name body).1.println
          (hiRedString "Failed" ++ ": " ++ toString (s.Start name body).1.failed),
        (s.Start name body).1.println
          (hiBlueString "Skiped" ++ ": " ++ toString (s.Start name body).1.skiped),
        (s.Start name body).1.println
          ("\nTotal: " ++
            toString ((s.Start name body).1.passed + (s.Start name body).1.failed +
              (s.Start name body).1.skiped) ++ "\n") ] := by
  constructor
  · unfold Suite.Start
    rcases ht : s.Title name body with ⟨s1, evs, fl⟩
    rfl
  · rfl

/-- Claim C10: a body that directly raises an abort signal (`Fail` or
`Fatal`) under `Title` with no enclosing `Check`/`Critical`/`Try` boundary:
the panic propagates uncaught out of `Title` and `Start`, no counter changes
and no Fail line is printed (the final suite state equals the initial one and
the output is just the group header), while the deferred indentation restore
and — under `Start` — the deferred summary printing still execute during the
unwind. -/
theorem title_start_direct_abort_propagates (s : Suite) (name msg : String)
    (c : Bool) :
    s.Title name
        ⟨fun s2 => (s2, [], RunFlow.panicked (if c then s2.Fatal msg else s2.Fail msg))⟩ =
      (s, [s.println "", s.title name, s.println ""],
       RunFlow.panicked (GoValue.suiteErr c msg)) ∧
    s.Start name
        ⟨fun s2 => (s2, [], RunFlow.panicked (if c then s2.Fatal msg else s2.Fail msg))⟩ =
      (s, [s.println "", s.title name, s.println ""] ++ s.summary,
       RunFlow.panicked (GoValue.suiteErr c msg)) := by
  have hsuite : ({ s with indent := s.indent + 2 - 2 } : Suite) = s := by
    cases s
    simp
  have htitle : s.Title name
      ⟨fun s2 => (s2, [], RunFlow.panicked (if c then s2.Fatal msg else s2.Fail msg))⟩ =
      (s, [s.println "", s.title name, s.println ""],
       RunFlow.panicked (GoValue.suiteErr c msg)) := by
    unfold Suite.Title
    cases c with
    | false =>
      show ({ s with indent := s.indent + 2 - 2 }, _, _) = _
      rw [hsuite]
      rfl
    | true =>
      show ({ s with indent := s.indent + 2 - 2 }, _, _) = _
      rw [hsuite]
      rfl
  refine ⟨htitle, ?_⟩
  unfold Suite.Start
  rw [htitle]
